import Mathlib

/-!
# Funds-transfer engine of the banking-system API — shallow embedding

This file embeds the transfer engine and the read-side access policy of the
banking REST API (`src/controllers/transaction.js`, `src/controllers/account.js`)
and proves the stated correctness properties against that embedding.

Modelling decisions:

* A `DB` value is the persistence layer's visible state: the list of
  `BankAccount` rows, the list of `Transaction` rows, and the auto-increment
  counter used for transaction ids.
* Balances and amounts are rationals (`Rat`): the source manipulates them as
  JavaScript numbers carrying decimal money amounts; the spec calls them
  decimal amounts, and all arithmetic performed on them is exact at the
  magnitudes involved.
* Each `await`ed persistence call of the handler is one atomic operation on
  `DB`.  The handler issues them one after the other with no surrounding
  `prisma.$transaction`, so the embedding composes them sequentially and also
  exposes the intermediate states (`transferAfterFailure`, `writePhase`) that
  a mid-sequence persistence failure or an interleaved second request can
  observe.
-/

namespace Banking

/-- A `Bank_Account` row: numeric id, owning user id, and current balance.
The other columns (bank name, account number) play no role in the transfer
engine or the access policy and are omitted. -/
structure BankAccount where
  id : Int
  user_id : Int
  balance : Rat
deriving DecidableEq

/-- A `Transaction` row: numeric id (auto-assigned), the two account ids and
the transferred amount. -/
structure Transaction where
  id : Int
  source_account_id : Int
  destination_account_id : Int
  amount : Rat
deriving DecidableEq

/-- The persistence layer's state: account rows, transaction rows, and the
auto-increment counter for transaction ids. -/
structure DB where
  accounts : List BankAccount
  transactions : List Transaction
  nextTransactionId : Int
deriving DecidableEq

/-- `prisma.bank_Account.findUnique({ where: { id } })`. -/
def findAccount (db : DB) (accId : Int) : Option BankAccount :=
  db.accounts.find? (fun a => a.id == accId)

/-- `prisma.transaction.findUnique({ where: { id } })`. -/
def findTransaction (db : DB) (tid : Int) : Option Transaction :=
  db.transactions.find? (fun t => t.id == tid)

/-- `prisma.bank_Account.update({ where: { id }, data: { balance } })`. -/
def updateAccountBalance (db : DB) (accId : Int) (newBalance : Rat) : DB :=
  { db with
    accounts := db.accounts.map
      (fun a => if a.id == accId then { a with balance := newBalance } else a) }

/-- `prisma.transaction.create({ data: { source_account_id,
destination_account_id, amount } })`: the row is appended with the
auto-assigned next id, and the created row is returned. -/
def insertTransaction (db : DB) (src dst : Int) (amount : Rat) : DB × Transaction :=
  let t : Transaction :=
    { id := db.nextTransactionId
      source_account_id := src
      destination_account_id := dst
      amount := amount }
  ({ db with
      transactions := db.transactions ++ [t]
      nextTransactionId := db.nextTransactionId + 1 },
   t)

/-- The domain failures of the transfer handler, in the order the handler's
validation chain can produce them. -/
inductive TransferError where
  | ValidationError
  | AccountNotFound
  | SameAccountTransfer
  | NotOwner
  | InsufficientBalance
deriving DecidableEq

/-- The failures of the read-side endpoints. -/
inductive ReadError where
  | NotFound
  | Forbidden
deriving DecidableEq

/-- The read-and-check phase of `router.post('/')` in
`src/controllers/transaction.js` (lines 191–223): fetch both account rows,
then run the chained conditionals in source order — existence of both
accounts, then same-account, then ownership, then balance sufficiency.  On
success it returns the two fetched snapshots, which the write phase uses. -/
def checkTransfer (db : DB) (callerId src dst : Int) (amount : Rat) :
    Except TransferError (BankAccount × BankAccount) :=
  match findAccount db src, findAccount db dst with
  | some s, some d =>
    if src = dst then .error .SameAccountTransfer
    else if callerId ≠ s.user_id then .error .NotOwner
    else if s.balance < amount then .error .InsufficientBalance
    else .ok (s, d)
  | _, _ => .error .AccountNotFound

/-- The write phase of `router.post('/')` (lines 225–249): insert the
transaction row, then overwrite the source balance with
`getSourceAccInfo.balance - amount`, then overwrite the destination balance
with `getDestAccInfo.balance + amount`.  Both written balances are computed
from the snapshots `s`, `d` fetched in the read phase, exactly as the source
does, not from the rows' current values. -/
def writePhase (db : DB) (s d : BankAccount) (src dst : Int) (amount : Rat) : DB :=
  updateAccountBalance
    (updateAccountBalance (insertTransaction db src dst amount).1
      src (s.balance - amount))
    dst (d.balance + amount)

/-- The whole transfer handler after request-shape validation: the final
`DB` state together with the handler's response — the created transaction on
success, a domain error otherwise.  On every error path the handler returns
before any mutation call, so the incoming state is passed through. -/
def transferRun (db : DB) (callerId src dst : Int) (amount : Rat) :
    DB × Except TransferError Transaction :=
  match checkTransfer db callerId src dst amount with
  | .error e => (db, .error e)
  | .ok (s, d) =>
      (writePhase db s d src dst amount, .ok (insertTransaction db src dst amount).2)

/-- Modelled from the spec: `src/validation/transaction.js` is not among the
provided sources; per the spec (§4.1 precondition 1, §6) the upstream request
validator requires the transfer `amount` to be a positive number. -/
def validateTransaction (amount : Rat) : Bool :=
  decide (0 < amount)

/-- The full handler: request-shape validation first (a failure returns the
field errors before touching persistence), then the transfer engine. -/
def handleTransfer (db : DB) (callerId src dst : Int) (amount : Rat) :
    DB × Except TransferError Transaction :=
  if validateTransaction amount then transferRun db callerId src dst amount
  else (db, .error .ValidationError)

/-- The database state observed when the persistence layer fails after `k` of
the three mutation calls of a passing transfer have committed.  The handler's
`try`/`catch` only forwards the thrown error to the generic error handler; it
issues no rollback and no compensating writes and the three calls are not
wrapped in a `prisma.$transaction`, so whatever the first `k` calls wrote
stays committed. -/
def transferAfterFailure (db : DB) (callerId src dst : Int) (amount : Rat)
    (k : Nat) : DB :=
  match checkTransfer db callerId src dst amount with
  | .error _ => db
  | .ok (s, d) =>
    match k with
    | 0 => db
    | 1 => (insertTransaction db src dst amount).1
    | 2 => updateAccountBalance (insertTransaction db src dst amount).1
             src (s.balance - amount)
    | _ => writePhase db s d src dst amount

/-- `router.get('/:accountId')` in `src/controllers/account.js`
(lines 486–518): missing account → 404 NotFound; then 403 Forbidden exactly
when the account's owner is not the caller and the caller's role is not
`admin`; otherwise the account row. -/
def getAccount (db : DB) (callerId : Int) (role : String) (accId : Int) :
    Except ReadError BankAccount :=
  match findAccount db accId with
  | none => .error .NotFound
  | some a =>
    if a.user_id ≠ callerId ∧ role ≠ "admin" then .error .Forbidden
    else .ok a

/-- `router.get('/:transaction')` in `src/controllers/transaction.js`
(lines 593–652): missing transaction → 404 NotFound; then 403 Forbidden
exactly when the caller owns neither the source account nor the destination
account of the transaction and is not an `admin`; otherwise the transaction.
The owner ids are read through the joined account rows
(`transaction.sourceAccount.user_id`, `transaction.destinationAccount.user_id`). -/
def getTransaction (db : DB) (callerId : Int) (role : String) (tid : Int) :
    Except ReadError Transaction :=
  match findTransaction db tid with
  | none => .error .NotFound
  | some t =>
    if (findAccount db t.source_account_id).map BankAccount.user_id ≠ some callerId ∧
       (findAccount db t.destination_account_id).map BankAccount.user_id ≠ some callerId ∧
       role ≠ "admin" then .error .Forbidden
    else .ok t

/-! ## Concrete states used by the witnesses and the failure scenarios -/

/-- Account 1, owned by user 1, balance 500 (spec §8 scenario). -/
def demoAccountA : BankAccount := { id := 1, user_id := 1, balance := 500 }

/-- Account 2, owned by user 2, balance 100 (spec §8 scenario). -/
def demoAccountB : BankAccount := { id := 2, user_id := 2, balance := 100 }

/-- Account 3, owned by user 3, balance 77; not involved in any demo transfer. -/
def demoAccountC : BankAccount := { id := 3, user_id := 3, balance := 77 }

/-- Three accounts, no transactions yet. -/
def demoDb : DB :=
  { accounts := [demoAccountA, demoAccountB, demoAccountC], transactions := [],
    nextTransactionId := 1 }

/-- A recorded transfer of 200 from account 1 to account 2. -/
def demoTxn : Transaction :=
  { id := 1, source_account_id := 1, destination_account_id := 2, amount := 200 }

/-- Two accounts plus one recorded transaction. -/
def demoDbT : DB :=
  { accounts := [demoAccountA, demoAccountB], transactions := [demoTxn],
    nextTransactionId := 2 }

/-- State for the concurrent-debit race: account 1 (user 1) holds exactly 100,
account 2 (user 2) holds 50. -/
def raceDb : DB :=
  { accounts := [{ id := 1, user_id := 1, balance := 100 },
                 { id := 2, user_id := 2, balance := 50 }],
    transactions := [], nextTransactionId := 1 }

/-- The snapshot of account 1 that both racing requests read. -/
def raceSrcSnap : BankAccount := { id := 1, user_id := 1, balance := 100 }

/-- The snapshot of account 2 that both racing requests read. -/
def raceDstSnap : BankAccount := { id := 2, user_id := 2, balance := 50 }

/-- The state after the first racing request's write phase commits. -/
def raceAfterFirstWrite : DB := writePhase raceDb raceSrcSnap raceDstSnap 1 2 100

/-- The state after the second racing request's write phase also commits,
still using the snapshots it read before the first request wrote. -/
def raceAfterBothWrites : DB :=
  writePhase raceAfterFirstWrite raceSrcSnap raceDstSnap 1 2 100

end Banking

namespace Banking

/-! ## Basic lemmas about the persistence operations -/

theorem findAccount_id (db : DB) (i : Int) (a : BankAccount)
    (h : findAccount db i = some a) : a.id = i := by
  unfold findAccount at h
  have hp := List.find?_some h
  exact beq_iff_eq.mp hp

theorem findAccount_mem (db : DB) (i : Int) (a : BankAccount)
    (h : findAccount db i = some a) : a ∈ db.accounts := by
  unfold findAccount at h
  exact List.mem_of_find?_eq_some h

theorem findAccount_update (db : DB) (i j : Int) (b : Rat) :
    findAccount (updateAccountBalance db i b) j =
      (findAccount db j).map
        (fun a => if a.id == i then { a with balance := b } else a) := by
  unfold findAccount updateAccountBalance
  rw [List.find?_map]
  have hpf : ((fun a : BankAccount => a.id == j) ∘
      (fun a : BankAccount => if a.id == i then { a with balance := b } else a)) =
      fun a : BankAccount => a.id == j := by
    funext a
    by_cases h : a.id = i
    · simp [h]
    · simp [h]
  rw [hpf]

theorem findAccount_update_self (db : DB) (i : Int) (b : Rat) (a : BankAccount)
    (h : findAccount db i = some a) :
    findAccount (updateAccountBalance db i b) i = some { a with balance := b } := by
  rw [findAccount_update, h]
  simp [findAccount_id db i a h]

theorem findAccount_update_other (db : DB) (i j : Int) (b : Rat) (hne : j ≠ i) :
    findAccount (updateAccountBalance db i b) j = findAccount db j := by
  rw [findAccount_update]
  cases h : findAccount db j with
  | none => rfl
  | some a =>
    have hid : a.id = j := findAccount_id db j a h
    simp [hid, hne]

theorem findAccount_insert (db : DB) (src dst : Int) (amount : Rat) (j : Int) :
    findAccount (insertTransaction db src dst amount).1 j = findAccount db j := rfl

/-! ## Inversion lemmas for the transfer handler -/

/-- Unfolding of `checkTransfer` when both account lookups succeed. -/
theorem checkTransfer_some_some (db : DB) (c src dst : Int) (amount : Rat)
    (s d : BankAccount) (hs : findAccount db src = some s)
    (hd : findAccount db dst = some d) :
    checkTransfer db c src dst amount =
      (if src = dst then .error .SameAccountTransfer
       else if c ≠ s.user_id then .error .NotOwner
       else if s.balance < amount then .error .InsufficientBalance
       else .ok (s, d)) := by
  unfold checkTransfer
  rw [hs, hd]

/-- Unfolding of `checkTransfer` when either account lookup fails. -/
theorem checkTransfer_none (db : DB) (c src dst : Int) (amount : Rat)
    (h : findAccount db src = none ∨ findAccount db dst = none) :
    checkTransfer db c src dst amount = .error .AccountNotFound := by
  unfold checkTransfer
  rcases h with h | h
  · rw [h]
  · rw [h]
    cases findAccount db src <;> rfl

theorem checkTransfer_ok_inv (db : DB) (c src dst : Int) (amount : Rat)
    (s d : BankAccount)
    (h : checkTransfer db c src dst amount = .ok (s, d)) :
    findAccount db src = some s ∧ findAccount db dst = some d ∧
      src ≠ dst ∧ c = s.user_id ∧ amount ≤ s.balance := by
  cases hs : findAccount db src with
  | none => rw [checkTransfer_none db c src dst amount (Or.inl hs)] at h; cases h
  | some s0 =>
    cases hd : findAccount db dst with
    | none => rw [checkTransfer_none db c src dst amount (Or.inr hd)] at h; cases h
    | some d0 =>
      rw [checkTransfer_some_some db c src dst amount s0 d0 hs hd] at h
      by_cases h1 : src = dst
      · rw [if_pos h1] at h; cases h
      rw [if_neg h1] at h
      by_cases h2 : c ≠ s0.user_id
      · rw [if_pos h2] at h; cases h
      rw [if_neg h2] at h
      by_cases h3 : s0.balance < amount
      · rw [if_pos h3] at h; cases h
      rw [if_neg h3] at h
      have hpair : (s0, d0) = (s, d) := Except.ok.inj h
      have hs0 : s0 = s := congrArg Prod.fst hpair
      have hd0 : d0 = d := congrArg Prod.snd hpair
      subst hs0; subst hd0
      exact ⟨rfl, rfl, h1, not_not.mp h2, not_lt.mp h3⟩

theorem transferRun_error_eq (db : DB) (c src dst : Int) (amount : Rat)
    (e : TransferError) (h : checkTransfer db c src dst amount = .error e) :
    transferRun db c src dst amount = (db, .error e) := by
  simp [transferRun, h]

theorem transferRun_ok_eq (db : DB) (c src dst : Int) (amount : Rat)
    (s d : BankAccount) (h : checkTransfer db c src dst amount = .ok (s, d)) :
    transferRun db c src dst amount =
      (writePhase db s d src dst amount,
       .ok (insertTransaction db src dst amount).2) := by
  simp [transferRun, h]

theorem transferRun_isOk_inv (db : DB) (c src dst : Int) (amount : Rat)
    (h : (transferRun db c src dst amount).2.isOk = true) :
    ∃ s d, checkTransfer db c src dst amount = .ok (s, d) := by
  cases hc : checkTransfer db c src dst amount with
  | error e => rw [transferRun_error_eq db c src dst amount e hc] at h; cases h
  | ok sd =>
    obtain ⟨s, d⟩ := sd
    exact ⟨s, d, rfl⟩

/-- The two account rows after a passing transfer's write phase: the source
row carries `s.balance - amount`, the destination row carries
`d.balance + amount`. -/
theorem findAccount_writePhase (db : DB) (s d : BankAccount) (src dst : Int)
    (amount : Rat) (hs : findAccount db src = some s)
    (hd : findAccount db dst = some d) (hne : src ≠ dst) :
    findAccount (writePhase db s d src dst amount) src =
        some { s with balance := s.balance - amount } ∧
      findAccount (writePhase db s d src dst amount) dst =
        some { d with balance := d.balance + amount } := by
  unfold writePhase
  constructor
  · rw [findAccount_update_other _ _ _ _ hne]
    exact findAccount_update_self _ _ _ _ (by rw [findAccount_insert]; exact hs)
  · exact findAccount_update_self _ _ _ _
      (by rw [findAccount_update_other _ _ _ _ (Ne.symm hne), findAccount_insert]; exact hd)

end Banking

namespace Banking

/-! ## Claimed properties: conservation, non-negativity, frame, exact balance -/

/-- C3: for every transfer that succeeds, the sum of the source and
destination account balances after the call equals their sum before the call
(conservation of funds). -/
theorem transfer_conservation (db : DB) (c src dst : Int) (amount : Rat)
    (s d sAfter dAfter : BankAccount)
    (hok : (transferRun db c src dst amount).2.isOk = true)
    (hs : findAccount db src = some s) (hd : findAccount db dst = some d)
    (hsA : findAccount (transferRun db c src dst amount).1 src = some sAfter)
    (hdA : findAccount (transferRun db c src dst amount).1 dst = some dAfter) :
    sAfter.balance + dAfter.balance = s.balance + d.balance := by
  obtain ⟨s0, d0, hc⟩ := transferRun_isOk_inv db c src dst amount hok
  obtain ⟨hs0, hd0, hne, -, -⟩ := checkTransfer_ok_inv db c src dst amount s0 d0 hc
  have hseq : s = s0 := by rw [hs0] at hs; exact (Option.some.inj hs).symm
  have hdeq : d = d0 := by rw [hd0] at hd; exact (Option.some.inj hd).symm
  rw [transferRun_ok_eq db c src dst amount s0 d0 hc] at hsA hdA
  obtain ⟨hws, hwd⟩ := findAccount_writePhase db s0 d0 src dst amount hs0 hd0 hne
  rw [hws] at hsA
  rw [hwd] at hdA
  have hsA2 : sAfter = { s0 with balance := s0.balance - amount } :=
    (Option.some.inj hsA).symm
  have hdA2 : dAfter = { d0 with balance := d0.balance + amount } :=
    (Option.some.inj hdA).symm
  rw [hseq, hdeq, hsA2, hdA2]
  show s0.balance - amount + (d0.balance + amount) = s0.balance + d0.balance
  ring

/-- C3 witness: the spec §8 scenario — 200 moved from account 1 (balance 500)
to account 2 (balance 100) ends with balances 300 and 300, and
300 + 300 = 500 + 100. -/
theorem transfer_conservation_witness :
    ({ id := 1, user_id := 1, balance := 300 } : BankAccount).balance +
        ({ id := 2, user_id := 2, balance := 300 } : BankAccount).balance =
      demoAccountA.balance + demoAccountB.balance :=
  transfer_conservation demoDb 1 1 2 200 demoAccountA demoAccountB
    { id := 1, user_id := 1, balance := 300 } { id := 2, user_id := 2, balance := 300 }
    (by decide) rfl rfl
    (by rw [transferRun_ok_eq demoDb 1 1 2 200 demoAccountA demoAccountB rfl,
          (findAccount_writePhase demoDb demoAccountA demoAccountB 1 2 200 rfl rfl
            (by decide)).1]
        norm_num [demoAccountA])
    (by rw [transferRun_ok_eq demoDb 1 1 2 200 demoAccountA demoAccountB rfl,
          (findAccount_writePhase demoDb demoAccountA demoAccountB 1 2 200 rfl rfl
            (by decide)).2]
        norm_num [demoAccountB])

/-- C5: starting from a state in which every account balance is non-negative,
a successful transfer of a (validated) positive amount leaves every account
balance non-negative: the source because the handler rejects any amount
exceeding its balance, the destination because a positive amount is added,
and every other account because its row is untouched. -/
theorem transfer_nonneg (db : DB) (c src dst : Int) (amount : Rat)
    (hpos : 0 < amount)
    (hinv : ∀ acc ∈ db.accounts, 0 ≤ acc.balance)
    (hok : (transferRun db c src dst amount).2.isOk = true)
    (acc : BankAccount) (hacc : acc ∈ (transferRun db c src dst amount).1.accounts) :
    0 ≤ acc.balance := by
  obtain ⟨s, d, hc⟩ := transferRun_isOk_inv db c src dst amount hok
  obtain ⟨hs, hd, hne, -, hbal⟩ := checkTransfer_ok_inv db c src dst amount s d hc
  rw [transferRun_ok_eq db c src dst amount s d hc] at hacc
  have hdb : 0 ≤ d.balance := hinv d (findAccount_mem db dst d hd)
  simp only [writePhase, updateAccountBalance, insertTransaction, List.map_map,
    List.mem_map, Function.comp] at hacc
  obtain ⟨x, hx, hxacc⟩ := hacc
  have hxb : 0 ≤ x.balance := hinv x hx
  rw [← hxacc]
  rcases eq_or_ne x.id src with h1 | h1
  · simp only [h1, beq_self_eq_true, if_true, ite_true]
    simp only [beq_iff_eq, hne, if_false, ite_false]
    linarith
  · simp only [beq_iff_eq, h1, if_false, ite_false]
    rcases eq_or_ne x.id dst with h2 | h2
    · simp only [h2, if_true, ite_true]
      linarith
    · simp only [h2, if_false, ite_false]
      exact hxb

/-- C5 witness: in the spec §8 scenario, account 3 (balance 77, untouched by
the successful transfer of 200 from account 1 to account 2) still has a
non-negative balance afterwards. -/
theorem transfer_nonneg_witness :
    (0 : Rat) ≤ demoAccountC.balance :=
  transfer_nonneg demoDb 1 1 2 200 (by decide) (by decide) (by decide)
    demoAccountC (by decide)

/-- C7: every domain-precondition failure of the transfer handler leaves the
database unchanged — no transaction row is created and no balance is
modified, because each failing check returns its error response before the
first mutation call. -/
theorem transfer_failure_frame (db : DB) (c src dst : Int) (amount : Rat)
    (e : TransferError)
    (h : (transferRun db c src dst amount).2 = .error e) :
    (transferRun db c src dst amount).1 = db := by
  cases hc : checkTransfer db c src dst amount with
  | error e0 => rw [transferRun_error_eq db c src dst amount e0 hc]
  | ok sd =>
    obtain ⟨s, d⟩ := sd
    rw [transferRun_ok_eq db c src dst amount s d hc] at h
    cases h

/-- C7 witness: user 2's attempt to transfer from account 1 (owned by user 1)
is rejected and leaves the database exactly as it was. -/
theorem transfer_failure_frame_witness :
    (transferRun demoDb 2 1 2 100).1 = demoDb :=
  transfer_failure_frame demoDb 2 1 2 100 .NotOwner rfl

/-- C6: when both accounts exist, the ids differ and the caller owns the
source account, the transfer fails with InsufficientBalance exactly when the
amount strictly exceeds the source balance; an amount exactly equal to the
source balance is admitted and leaves the source balance at zero. -/
theorem transfer_insufficient_iff (db : DB) (c src dst : Int) (amount : Rat)
    (s : BankAccount)
    (hs : findAccount db src = some s) (hd : (findAccount db dst).isSome = true)
    (hne : src ≠ dst) (hown : c = s.user_id) :
    ((transferRun db c src dst amount).2 = .error .InsufficientBalance ↔
        s.balance < amount) ∧
      (amount = s.balance →
        (transferRun db c src dst amount).2.isOk = true ∧
          (findAccount (transferRun db c src dst amount).1 src).map
            BankAccount.balance = some 0) := by
  obtain ⟨d, hdd⟩ := Option.isSome_iff_exists.mp hd
  have heq := checkTransfer_some_some db c src dst amount s d hs hdd
  rw [if_neg hne, if_neg (not_not_intro hown)] at heq
  by_cases hba : s.balance < amount
  · rw [if_pos hba] at heq
    rw [transferRun_error_eq db c src dst amount _ heq]
    exact ⟨⟨fun _ => hba, fun _ => rfl⟩,
      fun hab => absurd (hab ▸ hba) (lt_irrefl _)⟩
  · rw [if_neg hba] at heq
    rw [transferRun_ok_eq db c src dst amount s d heq]
    refine ⟨⟨fun hcontra => absurd hcontra (by simp), fun hlt => absurd hlt hba⟩, ?_⟩
    intro hab
    refine ⟨rfl, ?_⟩
    obtain ⟨hws, -⟩ := findAccount_writePhase db s d src dst amount hs hdd hne
    rw [hws]
    simp [hab]

/-- C6 witness: transferring exactly the full balance 500 out of account 1
succeeds and leaves account 1 at balance 0. -/
theorem transfer_insufficient_iff_witness :
    (findAccount (transferRun demoDb 1 1 2 500).1 1).map BankAccount.balance =
      some 0 :=
  ((transfer_insufficient_iff demoDb 1 1 2 500 demoAccountA rfl rfl
      (by decide) rfl).2 rfl).2

end Banking

namespace Banking

/-! ## Claimed properties: error precedence and read-side policies -/

/-- C4: the transfer preconditions are evaluated in the fixed source order
existence of both accounts → same-account → ownership → balance, and the
first failing check determines the returned error: a missing account id
yields AccountNotFound regardless of every later condition (in particular
even when the two ids are equal), equal ids of existing accounts yield
SameAccountTransfer regardless of ownership and balance, a non-owner is
rejected with NotOwner regardless of balance sufficiency, and only then is
the balance compared. -/
theorem transfer_error_precedence (db : DB) (c src dst : Int) (amount : Rat) :
    ((findAccount db src = none ∨ findAccount db dst = none) →
      (transferRun db c src dst amount).2 = .error .AccountNotFound) ∧
    (∀ s d, findAccount db src = some s → findAccount db dst = some d →
      src = dst → (transferRun db c src dst amount).2 = .error .SameAccountTransfer) ∧
    (∀ s d, findAccount db src = some s → findAccount db dst = some d →
      src ≠ dst → c ≠ s.user_id →
      (transferRun db c src dst amount).2 = .error .NotOwner) ∧
    (∀ s d, findAccount db src = some s → findAccount db dst = some d →
      src ≠ dst → c = s.user_id → s.balance < amount →
      (transferRun db c src dst amount).2 = .error .InsufficientBalance) := by
  refine ⟨fun h => ?_, fun s d hs hd h1 => ?_, fun s d hs hd h1 h2 => ?_,
    fun s d hs hd h1 h2 h3 => ?_⟩
  · rw [transferRun_error_eq db c src dst amount _ (checkTransfer_none db c src dst amount h)]
  · have heq := checkTransfer_some_some db c src dst amount s d hs hd
    rw [if_pos h1] at heq
    rw [transferRun_error_eq db c src dst amount _ heq]
  · have heq := checkTransfer_some_some db c src dst amount s d hs hd
    rw [if_neg h1, if_pos h2] at heq
    rw [transferRun_error_eq db c src dst amount _ heq]
  · have heq := checkTransfer_some_some db c src dst amount s d hs hd
    rw [if_neg h1, if_neg (not_not_intro h2), if_pos h3] at heq
    rw [transferRun_error_eq db c src dst amount _ heq]

/-- C4 witness: a transfer naming the nonexistent account 99 as both source
and destination fails with AccountNotFound, not SameAccountTransfer — the
existence check runs first. -/
theorem transfer_error_precedence_witness :
    (transferRun demoDb 1 99 99 10).2 = .error .AccountNotFound :=
  (transfer_error_precedence demoDb 1 99 99 10).1 (Or.inl rfl)

/-- Unfolding of `getAccount` when the account lookup succeeds. -/
theorem getAccount_some (db : DB) (c : Int) (role : String) (accId : Int)
    (a : BankAccount) (ha : findAccount db accId = some a) :
    getAccount db c role accId =
      if a.user_id ≠ c ∧ role ≠ "admin" then .error .Forbidden else .ok a := by
  unfold getAccount
  rw [ha]

/-- Unfolding of `getAccount` when the account lookup fails. -/
theorem getAccount_none (db : DB) (c : Int) (role : String) (accId : Int)
    (ha : findAccount db accId = none) :
    getAccount db c role accId = .error .NotFound := by
  unfold getAccount
  rw [ha]

/-- C8: on a single-account read, a missing account id yields NotFound
regardless of the caller; for an existing account the read returns the row
exactly when the caller owns it or has the admin role, and otherwise fails
with Forbidden. -/
theorem account_read_policy (db : DB) (c : Int) (role : String) (accId : Int) :
    (findAccount db accId = none → getAccount db c role accId = .error .NotFound) ∧
    (∀ a, findAccount db accId = some a →
      (getAccount db c role accId = .ok a ↔ (c = a.user_id ∨ role = "admin")) ∧
      (¬(c = a.user_id ∨ role = "admin") →
        getAccount db c role accId = .error .Forbidden)) := by
  refine ⟨getAccount_none db c role accId, fun a ha => ?_⟩
  rw [getAccount_some db c role accId a ha]
  by_cases hcond : a.user_id ≠ c ∧ role ≠ "admin"
  · rw [if_pos hcond]
    refine ⟨⟨fun h => absurd h (by simp), fun h => ?_⟩, fun _ => rfl⟩
    rcases h with h | h
    · exact absurd h.symm hcond.1
    · exact absurd h hcond.2
  · rw [if_neg hcond]
    push_neg at hcond
    have hperm : c = a.user_id ∨ role = "admin" := by
      rcases em (a.user_id = c) with he | he
      · exact Or.inl he.symm
      · exact Or.inr (hcond he)
    exact ⟨⟨fun _ => hperm, fun _ => rfl⟩, fun hno => absurd hperm hno⟩

/-- C8 witness: user 2 reading account 1 (owned by user 1) without the admin
role is rejected with Forbidden. -/
theorem account_read_policy_witness :
    getAccount demoDb 2 "customer" 1 = .error .Forbidden :=
  ((account_read_policy demoDb 2 "customer" 1).2 demoAccountA rfl).2 (by decide)

end Banking

namespace Banking

/-- Unfolding of `getTransaction` when the transaction lookup succeeds. -/
theorem getTransaction_some (db : DB) (c : Int) (role : String) (tid : Int)
    (t : Transaction) (ht : findTransaction db tid = some t) :
    getTransaction db c role tid =
      if (findAccount db t.source_account_id).map BankAccount.user_id ≠ some c ∧
         (findAccount db t.destination_account_id).map BankAccount.user_id ≠ some c ∧
         role ≠ "admin" then .error .Forbidden
      else .ok t := by
  unfold getTransaction
  rw [ht]

/-- Unfolding of `getTransaction` when the transaction lookup fails. -/
theorem getTransaction_none (db : DB) (c : Int) (role : String) (tid : Int)
    (ht : findTransaction db tid = none) :
    getTransaction db c role tid = .error .NotFound := by
  unfold getTransaction
  rw [ht]

/-- C9: on a single-transaction read, a missing transaction id yields
NotFound before any authorization is evaluated; for an existing transaction
the read returns it exactly when the caller owns the source account or the
destination account of the transaction or has the admin role, and otherwise
fails with Forbidden. -/
theorem transaction_read_policy (db : DB) (c : Int) (role : String) (tid : Int) :
    (findTransaction db tid = none → getTransaction db c role tid = .error .NotFound) ∧
    (∀ t sa da, findTransaction db tid = some t →
      findAccount db t.source_account_id = some sa →
      findAccount db t.destination_account_id = some da →
      (getTransaction db c role tid = .ok t ↔
        (c = sa.user_id ∨ c = da.user_id ∨ role = "admin")) ∧
      (¬(c = sa.user_id ∨ c = da.user_id ∨ role = "admin") →
        getTransaction db c role tid = .error .Forbidden)) := by
  refine ⟨getTransaction_none db c role tid, fun t sa da ht hsa hda => ?_⟩
  rw [getTransaction_some db c role tid t ht, hsa, hda]
  simp only [Option.map_some']
  by_cases hcond : some sa.user_id ≠ some c ∧ some da.user_id ≠ some c ∧ role ≠ "admin"
  · rw [if_pos hcond]
    refine ⟨⟨fun h => absurd h (by simp), fun h => ?_⟩, fun _ => rfl⟩
    rcases h with h | h | h
    · exact absurd (congrArg Option.some h.symm) hcond.1
    · exact absurd (congrArg Option.some h.symm) hcond.2.1
    · exact absurd h hcond.2.2
  · rw [if_neg hcond]
    push_neg at hcond
    have hperm : c = sa.user_id ∨ c = da.user_id ∨ role = "admin" := by
      rcases em (c = sa.user_id) with h | h
      · exact Or.inl h
      rcases em (c = da.user_id) with h2 | h2
      · exact Or.inr (Or.inl h2)
      refine Or.inr (Or.inr (hcond ?_ ?_))
      · intro hs2
        exact h (Option.some.inj hs2).symm
      · intro hd2
        exact h2 (Option.some.inj hd2).symm
    exact ⟨⟨fun _ => hperm, fun _ => rfl⟩, fun hno => absurd hperm hno⟩

/-- C9 witness: user 3, who owns neither account 1 nor account 2 and is not
an admin, is rejected with Forbidden when reading the recorded transaction
between them. -/
theorem transaction_read_policy_witness :
    getTransaction demoDbT 3 "customer" 1 = .error .Forbidden :=
  ((transaction_read_policy demoDbT 3 "customer" 1).2 demoTxn demoAccountA
    demoAccountB rfl rfl rfl).2 (by decide)

/-- C10: a transfer whose caller does not own the source account is rejected
with NotOwner unconditionally: the transfer handler reads only the caller's
id (`req.user.id`) and never consults the role, so the rejection applies
verbatim to admin callers; by contrast the read-side policy lets the admin
role bypass ownership — an admin read of any existing account succeeds. -/
theorem admin_no_transfer_ownership_bypass (db : DB) (c src dst : Int)
    (amount : Rat) (s : BankAccount)
    (hs : findAccount db src = some s) (hd : (findAccount db dst).isSome = true)
    (hne : src ≠ dst) (hnotOwner : c ≠ s.user_id) :
    (transferRun db c src dst amount).2 = .error .NotOwner ∧
    (∀ accId a, findAccount db accId = some a →
      getAccount db c "admin" accId = .ok a) := by
  obtain ⟨d, hdd⟩ := Option.isSome_iff_exists.mp hd
  constructor
  · have heq := checkTransfer_some_some db c src dst amount s d hs hdd
    rw [if_neg hne, if_pos hnotOwner] at heq
    rw [transferRun_error_eq db c src dst amount _ heq]
  · intro accId a ha
    rw [getAccount_some db c "admin" accId a ha]
    rw [if_neg (fun h => h.2 rfl)]

/-- C10 witness: user 2 (regardless of role) transferring out of account 1,
which user 1 owns, is rejected with NotOwner. -/
theorem admin_no_transfer_ownership_bypass_witness :
    (transferRun demoDb 2 1 2 100).2 = .error .NotOwner :=
  (admin_no_transfer_ownership_bypass demoDb 2 1 2 100 demoAccountA rfl rfl
    (by decide) (by decide)).1

end Banking

namespace Banking

/-! ## Refutations: atomicity and the concurrent-debit race -/

/-- C1 (refuted by the code): the three persistence mutations of a passing
transfer are not applied as one atomic unit.  The handler issues the
transaction insert and the two balance updates as three independent awaited
calls with no surrounding transaction, and its catch clause only forwards a
thrown error without compensating.  If the persistence layer fails after the
insert has committed (`k = 1`), the inserted transaction row persists while
neither balance has changed: an orphan transaction row with no balance
movement, which is neither "all three persist" nor "none do". -/
theorem transfer_interrupted_orphan_row :
    (transferAfterFailure demoDb 1 1 2 200 1).transactions ≠ demoDb.transactions ∧
    (transferAfterFailure demoDb 1 1 2 200 1).transactions =
      [{ id := 1, source_account_id := 1, destination_account_id := 2,
         amount := 200 }] ∧
    (transferAfterFailure demoDb 1 1 2 200 1).accounts = demoDb.accounts := by
  refine ⟨by decide, by decide, by decide⟩

/-- C2 (refuted by the code): the balance check and the balance decrement do
not form one serializable unit of work.  With account 1 holding exactly 100,
two requests each transferring 100 out of it interleave as read₁, read₂,
write₁, write₂ — the awaited reads and writes are independent calls with no
row lock or transaction, so nothing prevents this schedule.  Both read-phase
checks run against the initial state and both pass (first conjunct, used for
both requests), so both handlers proceed to their write phases and both
respond 201 success, committing two transaction rows (third conjunct) —
whereas a second request serialized after the first write is rejected with
InsufficientBalance (second conjunct), as the claim requires. -/
theorem transfer_race_both_succeed :
    checkTransfer raceDb 1 1 2 100 = .ok (raceSrcSnap, raceDstSnap) ∧
    checkTransfer raceAfterFirstWrite 1 1 2 100 = .error .InsufficientBalance ∧
    raceAfterBothWrites.transactions.length = 2 := by
  refine ⟨rfl, ?_, rfl⟩
  have h1 := (findAccount_writePhase raceDb raceSrcSnap raceDstSnap 1 2 100 rfl rfl
    (by decide)).1
  have h2 := (findAccount_writePhase raceDb raceSrcSnap raceDstSnap 1 2 100 rfl rfl
    (by decide)).2
  have heq := checkTransfer_some_some raceAfterFirstWrite 1 1 2 100
    { raceSrcSnap with balance := raceSrcSnap.balance - 100 }
    { raceDstSnap with balance := raceDstSnap.balance + 100 } h1 h2
  have hown : ¬((1 : Int) ≠
      ({ raceSrcSnap with balance := raceSrcSnap.balance - 100 } : BankAccount).user_id) := by
    decide
  have hlt : ({ raceSrcSnap with balance := raceSrcSnap.balance - 100 } :
      BankAccount).balance < 100 := by
    norm_num [raceSrcSnap]
  rw [if_neg (by decide), if_neg hown, if_pos hlt] at heq
  exact heq

end Banking
